import Mathlib

/-!
Verification of the per-tile voxel cache
`blub::procedural::voxel::tile::accessor<configType>`
(src/modules/procedural/source/blub/procedural/voxel/tile/accessor.hpp).

The class is templated on a configuration supplying `voxelsPerTile`; we
model that parameter as a natural number `N`.  Machine `int32` values are
modelled as `Int` (all quantities involved stay far below 2^31 for the
tile sizes the claims are about, and no claim concerns overflow).  The
`std::vector`-like containers are modelled as `List Voxel` and the
`scopedPointer` holding the optional LOD buffer as `Option (List Voxel)`.
-/

namespace blub

/-- Modelled from the spec: the voxel sample type `t_voxel = t_config::t_data`
is outside the excerpt; the spec describes it as an opaque value exposing an
interpolation/density scalar and value equality ("sample equality is value
equality of its full scalar state"). -/
structure Voxel where
  interpolation : Int
deriving DecidableEq, Repr

/-- Modelled from the spec: the default-constructed ("sample-default-initialized")
value of the sample type; the spec only requires it to be a fixed default,
with empty samples having a negative interpolation scalar. -/
def Voxel.initial : Voxel := { interpolation := -1 }

/-- `t_voxel::getInterpolation()`. -/
def Voxel.getInterpolation (v : Voxel) : Int := v.interpolation

/-- `blub::vector3int32` as used by the accessor. -/
structure vector3int32 where
  x : Int
  y : Int
  z : Int
deriving DecidableEq, Repr

/-- `blub::vector2int32` as used by the accessor. -/
structure vector2int32 where
  x : Int
  y : Int
deriving DecidableEq, Repr

/-- `voxelLength = t_config::voxelsPerTile` (accessor.hpp line 46). -/
def voxelLength (N : Nat) : Nat := N

/-- `voxelLengthWithNormalCorrection = voxelLength+3` (line 47); the spec
calls this `voxelLengthWithHalo`. -/
def voxelLengthWithNormalCorrection (N : Nat) : Nat := voxelLength N + 3

/-- `voxelLengthLod = (voxelLength+1)*2` (line 48). -/
def voxelLengthLod (N : Nat) : Nat := (voxelLength N + 1) * 2

/-- `voxelCount = voxelLengthWithNormalCorrection^3` (line 49). -/
def voxelCount (N : Nat) : Nat :=
  voxelLengthWithNormalCorrection N * voxelLengthWithNormalCorrection N *
    voxelLengthWithNormalCorrection N

/-- `voxelCountLod = voxelLengthLod*voxelLengthLod` (line 50); the spec calls
this `voxelCountLodPlane`. -/
def voxelCountLod (N : Nat) : Nat := voxelLengthLod N * voxelLengthLod N

/-- `voxelCountLodAll = 6*voxelCountLod` (line 51). -/
def voxelCountLodAll (N : Nat) : Nat := 6 * voxelCountLod N

/-- `voxelLengthSurface = t_config::voxelsPerTile+1` (line 52). -/
def voxelLengthSurface (N : Nat) : Nat := voxelLength N + 1

/-- `voxelCountSurface = voxelLengthSurface^3` (line 53). -/
def voxelCountSurface (N : Nat) : Nat :=
  voxelLengthSurface N * voxelLengthSurface N * voxelLengthSurface N

/-- The state of one `accessor<configType>` instance: the dense voxel list
`m_voxels`, the optional LOD buffer `m_voxelsLod` (a `scopedPointer`, null
modelled as `none`), the LOD flag and the two counters (lines 400-406). -/
structure accessor (N : Nat) where
  m_voxels : List Voxel
  m_voxelsLod : Option (List Voxel)
  m_calculateLod : Bool
  m_numVoxelLargerZero : Int
  m_numVoxelLargerZeroLod : Int
deriving Repr

/-- `accessor::create()` / the protected constructor (lines 63-66, 276-283):
main array of `voxelCount` default-initialized samples, LOD pointer null,
flag false, both counters zero. -/
def accessor.create (N : Nat) : accessor N :=
  { m_voxels := List.replicate (voxelCount N) Voxel.initial
  , m_voxelsLod := none
  , m_calculateLod := false
  , m_numVoxelLargerZero := 0
  , m_numVoxelLargerZeroLod := 0 }

/-- The `BASSERT` precondition of `setVoxel`/`getVoxel` (lines 87-92):
`-1 <= pos.xyz < voxelLengthWithNormalCorrection-1` per axis. -/
def posInRange (N : Nat) (pos : vector3int32) : Prop :=
  -1 ≤ pos.x ∧ -1 ≤ pos.y ∧ -1 ≤ pos.z ∧
  pos.x < (voxelLengthWithNormalCorrection N : Int) - 1 ∧
  pos.y < (voxelLengthWithNormalCorrection N : Int) - 1 ∧
  pos.z < (voxelLengthWithNormalCorrection N : Int) - 1

instance (N : Nat) (pos : vector3int32) : Decidable (posInRange N pos) := by
  unfold posInRange
  infer_instance

/-- The counter condition of `setVoxel` (line 94):
`toSet.getInterpolation() >= 0 && pos >= vector3int32(0) && pos < vector3int32(voxelLengthSurface)`.
The vector comparisons are componentwise (modelled from the spec: the spec
reads them as the bound holding "on every axis"; `vector3int32`'s operators
are outside the excerpt). -/
def surfaceCond (N : Nat) (pos : vector3int32) (toSet : Voxel) : Prop :=
  0 ≤ toSet.getInterpolation ∧
  (0 ≤ pos.x ∧ 0 ≤ pos.y ∧ 0 ≤ pos.z) ∧
  (pos.x < (voxelLengthSurface N : Int) ∧ pos.y < (voxelLengthSurface N : Int) ∧
    pos.z < (voxelLengthSurface N : Int))

instance (N : Nat) (pos : vector3int32) (toSet : Voxel) :
    Decidable (surfaceCond N pos toSet) := by
  unfold surfaceCond
  infer_instance

/-- The shared 3-D-to-1-D index formula of `setVoxel` (line 99) and
`getVoxel` (line 133):
`(pos.x+1)*H*H + (pos.y+1)*H + pos.z+1` with `H = voxelLengthWithNormalCorrection`. -/
def calculateIndex (N : Nat) (pos : vector3int32) : Int :=
  (pos.x + 1) * (voxelLengthWithNormalCorrection N : Int) *
      (voxelLengthWithNormalCorrection N : Int)
    + (pos.y + 1) * (voxelLengthWithNormalCorrection N : Int) + pos.z + 1

/-- `accessor::setVoxel` (lines 85-104): bump `m_numVoxelLargerZero` when the
incoming sample is non-empty and `pos` lies in the surface region, then store
at `calculateIndex` and return whether the stored value changed. -/
def accessor.setVoxel {N : Nat} (a : accessor N) (pos : vector3int32)
    (toSet : Voxel) : accessor N × Bool :=
  let a1 : accessor N :=
    if surfaceCond N pos toSet then
      { a with m_numVoxelLargerZero := a.m_numVoxelLargerZero + 1 }
    else a
  let index : Nat := (calculateIndex N pos).toNat
  let oldValue : Voxel := a1.m_voxels.getD index Voxel.initial
  ({ a1 with m_voxels := a1.m_voxels.set index toSet }, decide (oldValue ≠ toSet))

/-- `accessor::getVoxel` (lines 124-135): pure lookup at `calculateIndex`. -/
def accessor.getVoxel {N : Nat} (a : accessor N) (pos : vector3int32) : Voxel :=
  a.m_voxels.getD (calculateIndex N pos).toNat Voxel.initial

/-- `accessor::calculateCoordsLod` (lines 323-353): the switch over the six
faces (default branch returns a default-constructed `vector2int32`). -/
def calculateCoordsLod (pos : vector3int32) (lod : Int) : vector2int32 :=
  if lod = 0 ∨ lod = 1 then { x := pos.y, y := pos.z }
  else if lod = 2 ∨ lod = 3 then { x := pos.x, y := pos.z }
  else if lod = 4 ∨ lod = 5 then { x := pos.x, y := pos.y }
  else { x := 0, y := 0 }

/-- The LOD linear index of the 2-D overloads (lines 299, 313):
`lod*voxelCountLod + index.x*voxelLengthLod + index.y`. -/
def calculateIndexLod (N : Nat) (index : vector2int32) (lod : Int) : Int :=
  lod * (voxelCountLod N : Int) + index.x * (voxelLengthLod N : Int) + index.y

/-- Protected 2-D `accessor::setVoxelLod` (lines 288-304): bump
`m_numVoxelLargerZeroLod` when the sample is non-empty, then store into the
LOD buffer and return whether the stored value changed.  A null LOD buffer is
an asserted-against caller bug (`BASSERT(m_voxelsLod.get() != nullptr)`);
in that case the model leaves the buffer untouched and reports no change. -/
def accessor.setVoxelLod2 {N : Nat} (a : accessor N) (index : vector2int32)
    (toSet : Voxel) (lod : Int) : accessor N × Bool :=
  let a1 : accessor N :=
    if 0 ≤ toSet.getInterpolation then
      { a with m_numVoxelLargerZeroLod := a.m_numVoxelLargerZeroLod + 1 }
    else a
  match a1.m_voxelsLod with
  | none => (a1, false)
  | some arr =>
      let oldValue : Voxel := arr.getD (calculateIndexLod N index lod).toNat Voxel.initial
      ({ a1 with
          m_voxelsLod := some (arr.set (calculateIndexLod N index lod).toNat toSet) },
        decide (oldValue ≠ toSet))

/-- Protected 2-D `accessor::getVoxelLod` (lines 308-314). -/
def accessor.getVoxelLod2 {N : Nat} (a : accessor N) (index : vector2int32)
    (lod : Int) : Voxel :=
  match a.m_voxelsLod with
  | none => Voxel.initial
  | some arr => arr.getD (calculateIndexLod N index lod).toNat Voxel.initial

/-- Public 3-D `accessor::setVoxelLod` (lines 114-117): project via
`calculateCoordsLod`, then delegate to the 2-D overload. -/
def accessor.setVoxelLod {N : Nat} (a : accessor N) (pos : vector3int32)
    (toSet : Voxel) (lod : Int) : accessor N × Bool :=
  a.setVoxelLod2 (calculateCoordsLod pos lod) toSet lod

/-- Public 3-D `accessor::getVoxelLod` (lines 143-146). -/
def accessor.getVoxelLod {N : Nat} (a : accessor N) (pos : vector3int32)
    (lod : Int) : Voxel :=
  a.getVoxelLod2 (calculateCoordsLod pos lod) lod

/-- `accessor::isEmpty` (lines 153-156). -/
def accessor.isEmpty {N : Nat} (a : accessor N) : Bool :=
  decide (a.m_numVoxelLargerZero = 0)

/-- `accessor::isFull` (lines 163-166). -/
def accessor.isFull {N : Nat} (a : accessor N) : Bool :=
  decide (a.m_numVoxelLargerZero = (voxelCountSurface N : Int))

/-- `accessor::getCalculateLod` (lines 172-175). -/
def accessor.getCalculateLod {N : Nat} (a : accessor N) : Bool :=
  a.m_calculateLod

/-- `accessor::getNumVoxelLargerZero` (lines 182-185). -/
def accessor.getNumVoxelLargerZero {N : Nat} (a : accessor N) : Int :=
  a.m_numVoxelLargerZero

/-- `accessor::getNumVoxelLargerZeroLod` (lines 191-194). -/
def accessor.getNumVoxelLargerZeroLod {N : Nat} (a : accessor N) : Int :=
  a.m_numVoxelLargerZeroLod

/-- `accessor::getVoxelArrayLod` (lines 217-229): the nullable buffer handle. -/
def accessor.getVoxelArrayLod {N : Nat} (a : accessor N) : Option (List Voxel) :=
  a.m_voxelsLod

/-- `accessor::setCalculateLod` (lines 235-253): no-op when unchanged;
enabling allocates a fresh buffer of `6*voxelCountLod` default samples
(under `BASSERT(m_voxelsLod == nullptr)`); disabling resets the pointer. -/
def accessor.setCalculateLod {N : Nat} (a : accessor N) (lod : Bool) : accessor N :=
  if a.m_calculateLod = lod then a
  else if lod then
    { a with m_calculateLod := lod
           , m_voxelsLod := some (List.replicate (6 * voxelCountLod N) Voxel.initial) }
  else
    { a with m_calculateLod := lod, m_voxelsLod := none }

/-- `accessor::setNumVoxelLargerZero` (lines 259-262). -/
def accessor.setNumVoxelLargerZero {N : Nat} (a : accessor N) (toSet : Int) :
    accessor N :=
  { a with m_numVoxelLargerZero := toSet }

/-- `accessor::setNumVoxelLargerZeroLod` (lines 267-270). -/
def accessor.setNumVoxelLargerZeroLod {N : Nat} (a : accessor N) (toSet : Int) :
    accessor N :=
  { a with m_numVoxelLargerZeroLod := toSet }

/-- The logical fields written by `accessor::serialize` (lines 379-396), in
stream order: both counters, the flag (via `save`/`load`, lines 358-377),
the main voxel payload, and — only when the flag is set — the LOD payload. -/
structure serializedForm where
  numVoxelLargerZero : Int
  numVoxelLargerZeroLod : Int
  calculateLod : Bool
  voxels : List Voxel
  voxelsLod : Option (List Voxel)
deriving Repr

/-- `accessor::serialize` in the writing direction (lines 379-396): the LOD
payload is written only when `m_calculateLod` is set. -/
def accessor.serializeOut {N : Nat} (a : accessor N) : serializedForm :=
  { numVoxelLargerZero := a.m_numVoxelLargerZero
  , numVoxelLargerZeroLod := a.m_numVoxelLargerZeroLod
  , calculateLod := a.m_calculateLod
  , voxels := a.m_voxels
  , voxelsLod := if a.m_calculateLod then a.m_voxelsLod else none }

/-- `accessor::serialize` in the reading direction on a fresh instance
(lines 367-396): the counters are read first, then the flag is applied via
`setCalculateLod` (the `load` member, lines 367-377), then the main voxel
payload replaces `m_voxels`, and only when the restored flag is set is the
LOD payload read into the buffer (absent payload leaves the freshly
allocated buffer). -/
def accessor.deserializeInto (N : Nat) (s : serializedForm) : accessor N :=
  let a0 : accessor N := accessor.create N
  let a1 : accessor N := { a0 with m_numVoxelLargerZero := s.numVoxelLargerZero }
  let a2 : accessor N := { a1 with m_numVoxelLargerZeroLod := s.numVoxelLargerZeroLod }
  let a3 : accessor N := a2.setCalculateLod s.calculateLod
  let a4 : accessor N := { a3 with m_voxels := s.voxels }
  if a4.m_calculateLod then
    match s.voxelsLod with
    | some l => { a4 with m_voxelsLod := some l }
    | none => a4
  else a4

/-- The LOD ownership invariant of the spec: the buffer handle is non-null
iff the flag is true. -/
def accessor.lodInvariant {N : Nat} (a : accessor N) : Prop :=
  a.m_voxelsLod.isSome = a.m_calculateLod

instance {N : Nat} (a : accessor N) : Decidable a.lodInvariant := by
  unfold accessor.lodInvariant
  infer_instance

/-! ## Helper lemmas -/

theorem listGetD_set_self {α : Type} (l : List α) (i : Nat) (v d : α)
    (h : i < l.length) : (l.set i v).getD i d = v := by
  induction l generalizing i with
  | nil => simp at h
  | cons hd tl ih =>
      cases i with
      | zero => rfl
      | succ n =>
          have hn : n < tl.length := by simpa using h
          simpa [List.set, List.getD] using ih n hn

theorem calculateIndex_bounds {N : Nat} {pos : vector3int32}
    (h : posInRange N pos) :
    0 ≤ calculateIndex N pos ∧ calculateIndex N pos < (voxelCount N : Int) := by
  obtain ⟨hx1, hy1, hz1, hx2, hy2, hz2⟩ := h
  unfold calculateIndex voxelCount at *
  push_cast at *
  set H : Int := (voxelLengthWithNormalCorrection N : Int) with hH
  have hH3 : 3 ≤ H := by
    rw [hH]
    unfold voxelLengthWithNormalCorrection voxelLength
    omega
  have hH0 : 0 ≤ H := by linarith
  constructor
  · have t1 : 0 ≤ (pos.x + 1) * H * H :=
      mul_nonneg (mul_nonneg (by linarith) hH0) hH0
    have t2 : 0 ≤ (pos.y + 1) * H := mul_nonneg (by linarith) hH0
    linarith
  · have u1 : (pos.x + 1) * H * H ≤ (H - 1) * H * H := by
      have := mul_le_mul_of_nonneg_right
        (mul_le_mul_of_nonneg_right (show pos.x + 1 ≤ H - 1 by linarith) hH0) hH0
      linarith
    have u2 : (pos.y + 1) * H ≤ (H - 1) * H :=
      mul_le_mul_of_nonneg_right (by linarith) hH0
    have hid : (H - 1) * H * H + (H - 1) * H + (H - 1) = H * H * H - 1 := by ring
    linarith

theorem calculateIndexLod_bounds {N : Nat} {idx : vector2int32} {lod : Int}
    (hlod : 0 ≤ lod ∧ lod < 6)
    (hix : 0 ≤ idx.x ∧ idx.x < (voxelLengthLod N : Int))
    (hiy : 0 ≤ idx.y ∧ idx.y < (voxelLengthLod N : Int)) :
    0 ≤ calculateIndexLod N idx lod ∧
      calculateIndexLod N idx lod < (voxelCountLodAll N : Int) := by
  obtain ⟨hl1, hl2⟩ := hlod
  obtain ⟨hx1, hx2⟩ := hix
  obtain ⟨hy1, hy2⟩ := hiy
  unfold calculateIndexLod voxelCountLodAll voxelCountLod at *
  push_cast at *
  set L : Int := (voxelLengthLod N : Int) with hL
  have hL2 : 2 ≤ L := by
    rw [hL]
    unfold voxelLengthLod voxelLength
    omega
  have hL0 : 0 ≤ L := by linarith
  have hLL0 : 0 ≤ L * L := mul_nonneg hL0 hL0
  constructor
  · have t1 : 0 ≤ lod * (L * L) := mul_nonneg hl1 hLL0
    have t2 : 0 ≤ idx.x * L := mul_nonneg hx1 hL0
    linarith
  · have u1 : lod * (L * L) ≤ 5 * (L * L) :=
      mul_le_mul_of_nonneg_right (by linarith) hLL0
    have u2 : idx.x * L ≤ (L - 1) * L := mul_le_mul_of_nonneg_right (by linarith) hL0
    have hid : 5 * (L * L) + (L - 1) * L + (L - 1) = 6 * (L * L) - 1 := by ring
    linarith

theorem setVoxel_fst_voxels {N : Nat} (a : accessor N) (pos : vector3int32)
    (v : Voxel) :
    ((a.setVoxel pos v).1).m_voxels
      = a.m_voxels.set (calculateIndex N pos).toNat v := by
  dsimp only [accessor.setVoxel]
  split <;> rfl

theorem setVoxel_fst_lod {N : Nat} (a : accessor N) (pos : vector3int32)
    (v : Voxel) :
    ((a.setVoxel pos v).1).m_voxelsLod = a.m_voxelsLod := by
  dsimp only [accessor.setVoxel]
  split <;> rfl

theorem setVoxel_fst_flag {N : Nat} (a : accessor N) (pos : vector3int32)
    (v : Voxel) :
    ((a.setVoxel pos v).1).m_calculateLod = a.m_calculateLod := by
  dsimp only [accessor.setVoxel]
  split <;> rfl

theorem setVoxel_snd {N : Nat} (a : accessor N) (pos : vector3int32)
    (v : Voxel) :
    (a.setVoxel pos v).2
      = decide (a.m_voxels.getD (calculateIndex N pos).toNat Voxel.initial ≠ v) := by
  dsimp only [accessor.setVoxel]
  split <;> rfl

theorem setVoxel_fst_counter {N : Nat} (a : accessor N) (pos : vector3int32)
    (v : Voxel) :
    ((a.setVoxel pos v).1).m_numVoxelLargerZero
      = a.m_numVoxelLargerZero + (if surfaceCond N pos v then 1 else 0) := by
  dsimp only [accessor.setVoxel]
  split <;> simp

theorem setVoxelLod2_fst_counter {N : Nat} (a : accessor N) (idx : vector2int32)
    (v : Voxel) (lod : Int) :
    ((a.setVoxelLod2 idx v lod).1).m_numVoxelLargerZeroLod
      = a.m_numVoxelLargerZeroLod + (if 0 ≤ v.getInterpolation then 1 else 0) := by
  dsimp only [accessor.setVoxelLod2]
  by_cases hc : 0 ≤ v.getInterpolation <;> cases h : a.m_voxelsLod <;> simp [hc, h]

theorem setVoxelLod2_fst_flag {N : Nat} (a : accessor N) (idx : vector2int32)
    (v : Voxel) (lod : Int) :
    ((a.setVoxelLod2 idx v lod).1).m_calculateLod = a.m_calculateLod := by
  dsimp only [accessor.setVoxelLod2]
  by_cases hc : 0 ≤ v.getInterpolation <;> cases h : a.m_voxelsLod <;> simp [hc, h]

theorem setVoxelLod2_fst_lodEq {N : Nat} (a : accessor N) (idx : vector2int32)
    (v : Voxel) (lod : Int) (arr : List Voxel)
    (hsome : a.m_voxelsLod = some arr) :
    ((a.setVoxelLod2 idx v lod).1).m_voxelsLod
      = some (arr.set (calculateIndexLod N idx lod).toNat v) := by
  dsimp only [accessor.setVoxelLod2]
  by_cases hc : 0 ≤ v.getInterpolation <;> simp [hc, hsome]

theorem setVoxelLod2_snd {N : Nat} (a : accessor N) (idx : vector2int32)
    (v : Voxel) (lod : Int) (arr : List Voxel)
    (hsome : a.m_voxelsLod = some arr) :
    (a.setVoxelLod2 idx v lod).2
      = decide (arr.getD (calculateIndexLod N idx lod).toNat Voxel.initial ≠ v) := by
  dsimp only [accessor.setVoxelLod2]
  by_cases hc : 0 ≤ v.getInterpolation <;> simp [hc, hsome, List.getD]

theorem setVoxelLod2_fst_lodIsSome {N : Nat} (a : accessor N) (idx : vector2int32)
    (v : Voxel) (lod : Int) :
    ((a.setVoxelLod2 idx v lod).1).m_voxelsLod.isSome = a.m_voxelsLod.isSome := by
  dsimp only [accessor.setVoxelLod2]
  by_cases hc : 0 ≤ v.getInterpolation <;> cases h : a.m_voxelsLod <;> simp [hc, h]

theorem getVoxelLod2_eq {N : Nat} (a : accessor N) (idx : vector2int32)
    (lod : Int) (arr : List Voxel) (hsome : a.m_voxelsLod = some arr) :
    a.getVoxelLod2 idx lod
      = arr.getD (calculateIndexLod N idx lod).toNat Voxel.initial := by
  dsimp only [accessor.getVoxelLod2]
  simp [hsome]

theorem calculateCoordsLod_bounds {N : Nat} {pos : vector3int32} (lod : Int)
    (hx : 0 ≤ pos.x ∧ pos.x < (voxelLengthLod N : Int))
    (hy : 0 ≤ pos.y ∧ pos.y < (voxelLengthLod N : Int))
    (hz : 0 ≤ pos.z ∧ pos.z < (voxelLengthLod N : Int)) :
    (0 ≤ (calculateCoordsLod pos lod).x ∧
      (calculateCoordsLod pos lod).x < (voxelLengthLod N : Int)) ∧
    (0 ≤ (calculateCoordsLod pos lod).y ∧
      (calculateCoordsLod pos lod).y < (voxelLengthLod N : Int)) := by
  have hL : 0 < (voxelLengthLod N : Int) := by
    unfold voxelLengthLod voxelLength
    omega
  unfold calculateCoordsLod
  split
  · exact ⟨hy, hz⟩
  · split
    · exact ⟨hx, hz⟩
    · split
      · exact ⟨hx, hy⟩
      · exact ⟨⟨le_refl 0, hL⟩, ⟨le_refl 0, hL⟩⟩

/-! ## Claims -/

/-- Claim C1: for every coordinate `pos` with every component in
`[-1, voxelLengthWithNormalCorrection-2]`, `getVoxel pos` after
`setVoxel pos v` returns `v`; both go through the shared index formula
`calculateIndex` and `getVoxel` is a pure lookup (it is a function of the
state producing only a sample). -/
theorem setVoxel_getVoxel_roundtrip {N : Nat} (a : accessor N)
    (pos : vector3int32) (v : Voxel) (hpos : posInRange N pos)
    (hlen : a.m_voxels.length = voxelCount N) :
    ((a.setVoxel pos v).1).getVoxel pos = v := by
  obtain ⟨hb1, hb2⟩ := calculateIndex_bounds hpos
  have hlt : (calculateIndex N pos).toNat < a.m_voxels.length := by omega
  rw [accessor.getVoxel, setVoxel_fst_voxels]
  exact listGetD_set_self _ _ _ _ hlt

/-- Witness for C1 at `N = 0`, `pos = (-1,-1,-1)`. -/
theorem setVoxel_getVoxel_roundtrip_witness :
    posInRange 0 { x := -1, y := -1, z := -1 } ∧
    (accessor.create 0).m_voxels.length = voxelCount 0 ∧
    (((accessor.create 0).setVoxel { x := -1, y := -1, z := -1 }
        { interpolation := 3 }).1).getVoxel { x := -1, y := -1, z := -1 }
      = { interpolation := 3 } :=
  ⟨by decide, by decide,
    setVoxel_getVoxel_roundtrip (accessor.create 0) _ _ (by decide) (by decide)⟩

/-- Claim C2: `setVoxel pos v` returns `false` iff `v` equals the value
previously stored at `pos` (the value read before this write), and `true`
otherwise. -/
theorem setVoxel_changed_iff {N : Nat} (a : accessor N) (pos : vector3int32)
    (v : Voxel) :
    ((a.setVoxel pos v).2 = false ↔ a.getVoxel pos = v) ∧
    ((a.setVoxel pos v).2 = true ↔ a.getVoxel pos ≠ v) := by
  rw [setVoxel_snd, accessor.getVoxel]
  constructor <;> simp

/-- Claim C3: `setVoxel` increments `m_numVoxelLargerZero` exactly when the
incoming sample's interpolation is ≥ 0 and `pos` lies in
`[0, voxelLengthSurface)` on every axis (`surfaceCond`), without consulting
the previously stored value; and `setVoxelLod` applies the bump to
`m_numVoxelLargerZeroLod` conditioned only on the incoming sample being
non-empty. -/
theorem setVoxel_counter_increment {N : Nat} (a : accessor N)
    (pos : vector3int32) (v : Voxel) (pos3 : vector3int32) (lod : Int) :
    ((a.setVoxel pos v).1).m_numVoxelLargerZero
      = a.m_numVoxelLargerZero + (if surfaceCond N pos v then 1 else 0) ∧
    ((a.setVoxelLod pos3 v lod).1).m_numVoxelLargerZeroLod
      = a.m_numVoxelLargerZeroLod + (if 0 ≤ v.getInterpolation then 1 else 0) :=
  ⟨setVoxel_fst_counter a pos v,
    setVoxelLod2_fst_counter a (calculateCoordsLod pos3 lod) v lod⟩

/-- Claim C4: a freshly created cache has the main array equal to
`voxelCount` default-initialized samples, the LOD buffer absent, the LOD
flag false, both counters zero, `isEmpty = true`, and `isFull = false`
whenever `voxelCountSurface > 0`. -/
theorem create_defaultState (N : Nat) (h : 0 < voxelCountSurface N) :
    (accessor.create N).m_voxels = List.replicate (voxelCount N) Voxel.initial ∧
    (accessor.create N).m_voxels.length = voxelCount N ∧
    (accessor.create N).m_voxelsLod = none ∧
    (accessor.create N).m_calculateLod = false ∧
    (accessor.create N).m_numVoxelLargerZero = 0 ∧
    (accessor.create N).m_numVoxelLargerZeroLod = 0 ∧
    (accessor.create N).isEmpty = true ∧
    (accessor.create N).isFull = false := by
  refine ⟨rfl, by simp [accessor.create], rfl, rfl, rfl, rfl, rfl, ?_⟩
  simp only [accessor.isFull, accessor.create, decide_eq_false_iff_not]
  omega

/-- Witness for C4 at `N = 2`. -/
theorem create_defaultState_witness :
    0 < voxelCountSurface 2 ∧ (accessor.create 2).isFull = false :=
  ⟨by decide, (create_defaultState 2 (by decide)).2.2.2.2.2.2.2⟩

/-- Claim C5: `setCalculateLod` is a no-op when the argument equals the
current flag (so a repeated call is idempotent and does not reallocate);
enabling from disabled allocates a fresh default-initialized buffer of
length `6*voxelCountLod`; disabling drops the buffer; and `create`,
`setVoxel`, `setVoxelLod`, `setCalculateLod` and the counter setters all
preserve the invariant that the buffer is present iff the flag is true. -/
theorem setCalculateLod_spec {N : Nat} (a : accessor N) (b : Bool) (c : Int)
    (pos : vector3int32) (v : Voxel) (lod : Int) (hinv : a.lodInvariant) :
    a.setCalculateLod a.m_calculateLod = a ∧
    (a.setCalculateLod b).setCalculateLod b = a.setCalculateLod b ∧
    (a.m_calculateLod = false → (a.setCalculateLod true).m_voxelsLod
      = some (List.replicate (6 * voxelCountLod N) Voxel.initial)) ∧
    (a.setCalculateLod false).m_voxelsLod = none ∧
    (accessor.create N).lodInvariant ∧
    (a.setCalculateLod b).lodInvariant ∧
    ((a.setVoxel pos v).1).lodInvariant ∧
    ((a.setVoxelLod pos v lod).1).lodInvariant ∧
    (a.setNumVoxelLargerZero c).lodInvariant ∧
    (a.setNumVoxelLargerZeroLod c).lodInvariant := by
  have noop : ∀ (x : accessor N) (b : Bool), x.m_calculateLod = b →
      x.setCalculateLod b = x := by
    intro x b hb
    unfold accessor.setCalculateLod
    rw [if_pos hb]
  have hflag : ∀ (x : accessor N) (b : Bool),
      (x.setCalculateLod b).m_calculateLod = b := by
    intro x b
    unfold accessor.setCalculateLod
    split
    · assumption
    · split <;> rfl
  refine ⟨noop a _ rfl, noop _ _ (hflag a b), ?_, ?_, rfl, ?_, ?_, ?_, hinv, hinv⟩
  · intro hb
    unfold accessor.setCalculateLod
    rw [if_neg (by simp [hb]), if_pos rfl]
  · by_cases hb : a.m_calculateLod = false
    · rw [noop a false hb]
      unfold accessor.lodInvariant at hinv
      rw [hb] at hinv
      simpa using hinv
    · unfold accessor.setCalculateLod
      rw [if_neg hb]
      simp
  · unfold accessor.lodInvariant
    unfold accessor.setCalculateLod
    split
    · exact hinv
    · split <;> simp_all
  · unfold accessor.lodInvariant
    rw [setVoxel_fst_lod, setVoxel_fst_flag]
    exact hinv
  · unfold accessor.lodInvariant
    rw [accessor.setVoxelLod, setVoxelLod2_fst_lodIsSome, setVoxelLod2_fst_flag]
    exact hinv

/-- Witness for C5 at a freshly created cache with `N = 1`. -/
theorem setCalculateLod_spec_witness :
    (accessor.create 1).lodInvariant ∧
    ((accessor.create 1).setCalculateLod true).m_voxelsLod
      = some (List.replicate (6 * voxelCountLod 1) Voxel.initial) :=
  ⟨by simp [accessor.lodInvariant, accessor.create],
    (setCalculateLod_spec (accessor.create 1) true 0 { x := 0, y := 0, z := 0 }
        { interpolation := 0 } 0
        (by simp [accessor.lodInvariant, accessor.create])).2.2.1 rfl⟩

/-- Claim C6: for every `lod` in `[0,6)` and every `pos` with all components
in `[0, voxelLengthLod)` lying on the face's zero-plane,
`calculateCoordsLod` returns `(pos.y, pos.z)` for faces 0 and 1,
`(pos.x, pos.z)` for faces 2 and 3, and `(pos.x, pos.y)` for faces 4 and 5. -/
theorem calculateCoordsLod_projection (N : Nat) (pos : vector3int32)
    (lod : Int) (hlod : 0 ≤ lod ∧ lod < 6)
    (hx : 0 ≤ pos.x ∧ pos.x < (voxelLengthLod N : Int))
    (hy : 0 ≤ pos.y ∧ pos.y < (voxelLengthLod N : Int))
    (hz : 0 ≤ pos.z ∧ pos.z < (voxelLengthLod N : Int)) :
    ((lod = 0 ∨ lod = 1) → pos.x = 0 →
      calculateCoordsLod pos lod = { x := pos.y, y := pos.z }) ∧
    ((lod = 2 ∨ lod = 3) → pos.y = 0 →
      calculateCoordsLod pos lod = { x := pos.x, y := pos.z }) ∧
    ((lod = 4 ∨ lod = 5) → pos.z = 0 →
      calculateCoordsLod pos lod = { x := pos.x, y := pos.y }) := by
  refine ⟨?_, ?_, ?_⟩ <;> intro h hzero <;> unfold calculateCoordsLod
  · rw [if_pos h]
  · rw [if_neg (by rcases h with h | h <;> subst h <;> decide), if_pos h]
  · rw [if_neg (by rcases h with h | h <;> subst h <;> decide),
      if_neg (by rcases h with h | h <;> subst h <;> decide), if_pos h]

/-- Witness for C6 at `N = 0`, `lod = 2`, `pos = (1,0,1)`. -/
theorem calculateCoordsLod_projection_witness :
    ((0:Int) ≤ 2 ∧ (2:Int) < 6) ∧
    calculateCoordsLod { x := 1, y := 0, z := 1 } 2 = { x := 1, y := 1 } :=
  ⟨by decide,
    (calculateCoordsLod_projection 0 { x := 1, y := 0, z := 1 } 2 (by decide)
        (by decide) (by decide) (by decide)).2.1 (Or.inl rfl) rfl⟩

/-- Claim C7: with the LOD buffer present (LOD enabled), for every face
index in `[0,6)` and every in-range `pos`, `setVoxelLod pos v lod` followed
by `getVoxelLod pos lod` returns `v`; both go through
`calculateCoordsLod` and the linear index `calculateIndexLod`, and the
setter returns whether the stored value changed. -/
theorem setVoxelLod_getVoxelLod_roundtrip {N : Nat} (a : accessor N)
    (pos : vector3int32) (v : Voxel) (lod : Int) (arr : List Voxel)
    (hflagOn : a.m_calculateLod = true)
    (hsome : a.m_voxelsLod = some arr)
    (hlen : arr.length = voxelCountLodAll N)
    (hlod : 0 ≤ lod ∧ lod < 6)
    (hx : 0 ≤ pos.x ∧ pos.x < (voxelLengthLod N : Int))
    (hy : 0 ≤ pos.y ∧ pos.y < (voxelLengthLod N : Int))
    (hz : 0 ≤ pos.z ∧ pos.z < (voxelLengthLod N : Int)) :
    ((a.setVoxelLod pos v lod).1).getVoxelLod pos lod = v ∧
    ((a.setVoxelLod pos v lod).2 = false ↔ a.getVoxelLod pos lod = v) := by
  have hc := calculateCoordsLod_bounds (N := N) lod hx hy hz
  obtain ⟨hi1, hi2⟩ := calculateIndexLod_bounds hlod hc.1 hc.2
  have hlt : (calculateIndexLod N (calculateCoordsLod pos lod) lod).toNat
      < arr.length := by omega
  constructor
  · rw [accessor.getVoxelLod, accessor.setVoxelLod,
      getVoxelLod2_eq _ _ _ _ (setVoxelLod2_fst_lodEq a _ v lod arr hsome)]
    exact listGetD_set_self _ _ _ _ hlt
  · rw [accessor.setVoxelLod, accessor.getVoxelLod,
      setVoxelLod2_snd a _ v lod arr hsome, getVoxelLod2_eq a _ lod arr hsome]
    simp

/-- Witness for C7 at `N = 0`, face 0, `pos = (0,1,1)` on a freshly enabled
LOD buffer. -/
theorem setVoxelLod_getVoxelLod_roundtrip_witness :
    ((accessor.create 0).setCalculateLod true).m_voxelsLod
      = some (List.replicate (voxelCountLodAll 0) Voxel.initial) ∧
    ((((accessor.create 0).setCalculateLod true).setVoxelLod
        { x := 0, y := 1, z := 1 } { interpolation := 4 } 0).1).getVoxelLod
        { x := 0, y := 1, z := 1 } 0 = { interpolation := 4 } :=
  ⟨by decide,
    (setVoxelLod_getVoxelLod_roundtrip ((accessor.create 0).setCalculateLod true)
        { x := 0, y := 1, z := 1 } { interpolation := 4 } 0
        (List.replicate (voxelCountLodAll 0) Voxel.initial)
        (by decide) (by decide) (by decide) (by decide) (by decide) (by decide)
        (by decide)).1⟩

/-- Claim C8: serializing any cache state and deserializing into a fresh
instance restores the LOD flag, both counters (hence `isEmpty`/`isFull`),
the main voxel payload, and — exactly when the flag is set — the LOD
payload; `deserializeInto` applies the flag via `setCalculateLod` before
the voxel payload is read. -/
theorem serialize_roundtrip {N : Nat} (a : accessor N) (hinv : a.lodInvariant) :
    (accessor.deserializeInto N a.serializeOut).m_calculateLod
      = a.m_calculateLod ∧
    (accessor.deserializeInto N a.serializeOut).m_numVoxelLargerZero
      = a.m_numVoxelLargerZero ∧
    (accessor.deserializeInto N a.serializeOut).m_numVoxelLargerZeroLod
      = a.m_numVoxelLargerZeroLod ∧
    (accessor.deserializeInto N a.serializeOut).isEmpty = a.isEmpty ∧
    (accessor.deserializeInto N a.serializeOut).isFull = a.isFull ∧
    (accessor.deserializeInto N a.serializeOut).m_voxels = a.m_voxels ∧
    (a.m_calculateLod = true →
      (accessor.deserializeInto N a.serializeOut).m_voxelsLod
        = a.m_voxelsLod) := by
  cases hb : a.m_calculateLod with
  | false =>
      have hnone : a.m_voxelsLod = none := by
        unfold accessor.lodInvariant at hinv
        rw [hb] at hinv
        simpa using hinv
      refine ⟨?_, ?_, ?_, ?_, ?_, ?_, ?_⟩ <;>
        simp [accessor.deserializeInto, accessor.serializeOut,
          accessor.setCalculateLod, accessor.create, accessor.isEmpty,
          accessor.isFull, hb, hnone]
  | true =>
      obtain ⟨arr, harr⟩ : ∃ arr, a.m_voxelsLod = some arr := by
        unfold accessor.lodInvariant at hinv
        rw [hb] at hinv
        exact Option.isSome_iff_exists.mp hinv
      refine ⟨?_, ?_, ?_, ?_, ?_, ?_, ?_⟩ <;>
        simp [accessor.deserializeInto, accessor.serializeOut,
          accessor.setCalculateLod, accessor.create, accessor.isEmpty,
          accessor.isFull, hb, harr]

/-- Witness for C8 at a freshly created cache with LOD enabled, `N = 0`. -/
theorem serialize_roundtrip_witness :
    ((accessor.create 0).setCalculateLod true).lodInvariant ∧
    (accessor.deserializeInto 0
        ((accessor.create 0).setCalculateLod true).serializeOut).m_calculateLod
      = ((accessor.create 0).setCalculateLod true).m_calculateLod :=
  ⟨by decide, (serialize_roundtrip _ (by decide)).1⟩

/-- Claim C9: under the documented preconditions the main linear index lies
in `[0, voxelCount)` and the LOD linear index lies in
`[0, voxelCountLodAll)`, so neither array access is out of bounds. -/
theorem indexFormulas_inBounds (N : Nat) (pos : vector3int32)
    (idx : vector2int32) (lod : Int) (hpos : posInRange N pos)
    (hlod : 0 ≤ lod ∧ lod < 6)
    (hix : 0 ≤ idx.x ∧ idx.x < (voxelLengthLod N : Int))
    (hiy : 0 ≤ idx.y ∧ idx.y < (voxelLengthLod N : Int)) :
    (0 ≤ calculateIndex N pos ∧ calculateIndex N pos < (voxelCount N : Int) ∧
      (calculateIndex N pos).toNat < voxelCount N) ∧
    (0 ≤ calculateIndexLod N idx lod ∧
      calculateIndexLod N idx lod < (voxelCountLodAll N : Int) ∧
      (calculateIndexLod N idx lod).toNat < voxelCountLodAll N) := by
  obtain ⟨h1, h2⟩ := calculateIndex_bounds hpos
  obtain ⟨h3, h4⟩ := calculateIndexLod_bounds hlod hix hiy
  exact ⟨⟨h1, h2, by omega⟩, ⟨h3, h4, by omega⟩⟩

/-- Witness for C9 at `N = 0`, `pos = (-1,0,1)`, `idx = (1,0)`, `lod = 5`. -/
theorem indexFormulas_inBounds_witness :
    posInRange 0 { x := -1, y := 0, z := 1 } ∧
    (calculateIndex 0 { x := -1, y := 0, z := 1 }).toNat < voxelCount 0 ∧
    (calculateIndexLod 0 { x := 1, y := 0 } 5).toNat < voxelCountLodAll 0 :=
  ⟨by decide,
    (indexFormulas_inBounds 0 { x := -1, y := 0, z := 1 } { x := 1, y := 0 } 5
        (by decide) (by decide) (by decide) (by decide)).1.2.2,
    (indexFormulas_inBounds 0 { x := -1, y := 0, z := 1 } { x := 1, y := 0 } 5
        (by decide) (by decide) (by decide) (by decide)).2.2.2⟩

/-- Claim C10: disabling LOD drops the buffer but leaves
`m_numVoxelLargerZeroLod` unchanged; after disabling and re-enabling, the
buffer is fresh default-initialized while `getNumVoxelLargerZeroLod` still
returns the previously accumulated count, until `setNumVoxelLargerZeroLod`
overwrites it. -/
theorem disableLod_preserves_lodCounter {N : Nat} (a : accessor N) (c : Int) :
    (a.setCalculateLod false).getNumVoxelLargerZeroLod
      = a.getNumVoxelLargerZeroLod ∧
    ((a.setCalculateLod false).setCalculateLod true).m_voxelsLod
      = some (List.replicate (6 * voxelCountLod N) Voxel.initial) ∧
    ((a.setCalculateLod false).setCalculateLod true).getNumVoxelLargerZeroLod
      = a.getNumVoxelLargerZeroLod ∧
    (((a.setCalculateLod false).setCalculateLod true).setNumVoxelLargerZeroLod
        c).getNumVoxelLargerZeroLod = c := by
  cases hb : a.m_calculateLod <;>
    simp [accessor.setCalculateLod, accessor.getNumVoxelLargerZeroLod,
      accessor.setNumVoxelLargerZeroLod, hb]

end blub
